import Mathlib

/-!
Shallow embedding of the two variants of the subscription-sales Telegram bot:
`src/code.py` (SQLite store) and `src/main.py` (MongoDB store).

Conventions used throughout:

* UTC timestamps are integers counting seconds; `timedelta(days = n)` adds
  `n * 86400` seconds.
* Each store table or collection is a `List` of row structures.  A SQL
  `UPDATE ... WHERE` rewrites every matching row; a Mongo `update_one`
  rewrites the first matching document; `find_one` / `fetchone` return the
  first match.
* Outbound Telegram calls (send_message, send_photo, ban_chat_member,
  create_chat_invite_link, ...) are fallible.  Their success is an explicit
  `Bool` parameter or an oracle function, each successful call is recorded as
  an `Effect`, and a failed call records nothing and raises; the embedding
  propagates the failure exactly as far as the corresponding Python
  `try`/`except` structure does.
* Store operations are modeled as succeeding except where a claim concerns a
  storage failure (`add_payment`), in which case the outcome of the insert is
  an explicit parameter.
* Message texts are abbreviated to short labels, except where a claim
  depends on the exact wording.
-/

namespace Bot

/-- Seconds in one day: `timedelta(days = n)` adds `n * 86400` seconds. -/
def daySecs : Int := 86400

/-- The profile fields of an incoming aiogram user object
(`usr.id`, `usr.username`, `usr.first_name`, `usr.last_name`). -/
structure Profile where
  id : Int
  username : Option String
  first_name : Option String
  last_name : Option String
deriving DecidableEq

/-- Observable side effects of a handler or sweep pass. -/
inductive Effect
| dbWrite (table : String) (desc : String)
| sendMessage (chat : Int) (text : String)
| sendPhoto (chat : Int)
| banMember (chat uid : Int)
| unbanMember (chat uid : Int)
| answerCallback (text : String)
| editMessage (text : String)
deriving DecidableEq

/-- Store mutations, as opposed to outbound Telegram traffic. -/
def Effect.isWrite : Effect → Bool
| .dbWrite _ _ => true
| _ => false

/-- Every store write in the list happens before every outbound call:
once a non-write effect occurs, no store write follows it. -/
def writesPrecedeSends : List Effect → Bool
| [] => true
| e :: rest => if e.isWrite then writesPrecedeSends rest
    else rest.all (fun x => !x.isWrite)

/-- Python exceptions tracked by the embedding. -/
inductive PyExc
| attributeError
| storageFailure
deriving DecidableEq

/-- Success oracle for the fallible outbound calls made by a sweep pass. -/
structure SweepOracle where
  sendOk : Int → String → Bool
  banOk : Int → Bool
  unbanOk : Int → Bool

/-- `find_one` / `SELECT ... WHERE key = i ... fetchone`: first match. -/
def findBy {α κ : Type} [DecidableEq κ] (key : α → κ) : List α → κ → Option α
| [], _ => none
| r :: rest, i => if key r = i then some r else findBy key rest i

/-- SQL `UPDATE ... WHERE key = i`: rewrites every matching row. -/
def updateAll {α κ : Type} [DecidableEq κ] (key : α → κ) :
    List α → κ → (α → α) → List α
| [], _, _ => []
| r :: rest, i, f => (if key r = i then f r else r) :: updateAll key rest i f

/-- Mongo `update_one` on `key = i`: rewrites the first matching document. -/
def updateFirst {α κ : Type} [DecidableEq κ] (key : α → κ) (i : κ) (f : α → α) :
    List α → List α
| [] => []
| r :: rest => if key r = i then f r :: rest else r :: updateFirst key i f rest

/-- Number of rows with the given key. -/
def countBy {α κ : Type} [DecidableEq κ] (key : α → κ) : List α → κ → Nat
| [], _ => 0
| r :: rest, i => (if key r = i then 1 else 0) + countBy key rest i

end Bot

namespace CodePy

open Bot

/-- `PLANS` (code.py lines 72-77). -/
def PLANSentry : String → Option (String × String × Nat) := fun k =>
  if k = "plan1" then some ("1 Month", "₹99", 30)
  else if k = "plan2" then some ("6 Months", "₹199", 180)
  else if k = "plan3" then some ("1 Year", "₹1999", 365)
  else if k = "plan4" then some ("Lifetime", "₹2999", 36500)
  else none

/-- A nullable TEXT timestamp column of the SQLite store.  `null` covers SQL
NULL (and the empty string, which is equally falsy in Python and is never
written by this program); `bad` is a non-empty text that
`datetime.fromisoformat` rejects; `time t` is a text parsing to timestamp
`t`. -/
inductive StoredTime
| null
| bad
| time (t : Int)
deriving DecidableEq

/-- One row of the `users` table (code.py lines 92-103). -/
structure UserRow where
  user_id : Int
  username : Option String
  first_name : Option String
  last_name : Option String
  plan_key : Option String
  start_at : StoredTime
  end_at : StoredTime
  status : String
  created_at : StoredTime
  reminded_3d : Nat
deriving DecidableEq

/-- One row of the `payments` table (code.py lines 104-111). -/
structure PaymentRow where
  id : Nat
  user_id : Int
  plan_key : String
  file_id : String
  created_at : Int
  status : String
deriving DecidableEq

/-- The `payments` table together with its AUTOINCREMENT counter (ids are
assigned 1, 2, ...). -/
structure PayDb where
  payments : List PaymentRow
  nextId : Nat
deriving DecidableEq

/-- `get_user` (code.py 140-146): `SELECT * FROM users WHERE user_id=?`
with `fetchone`; `user_id` is the primary key. -/
def get_user (tbl : List UserRow) (uid : Int) : Option UserRow :=
  findBy (fun r => r.user_id) tbl uid

/-- `upsert_user` (code.py 122-138): INSERT a row with defaults
(`plan_key, start_at, end_at` NULL, `status` none, `reminded_3d` 0), ON
CONFLICT on the primary key update only the three profile columns. -/
def upsert_user (tbl : List UserRow) (u : Profile) (now : Int) : List UserRow :=
  match get_user tbl u.id with
  | some _ => updateAll (fun r => r.user_id) tbl u.id (fun r =>
      { r with
          username := u.username, first_name := u.first_name,
          last_name := u.last_name })
  | none => tbl ++
      [{ user_id := u.id, username := u.username,
         first_name := u.first_name, last_name := u.last_name, plan_key := none,
         start_at := .null, end_at := .null, status := "none",
         created_at := .time now, reminded_3d := 0 }]

/-- `set_status` (code.py 156-162). -/
def set_status (tbl : List UserRow) (uid : Int) (s : String) : List UserRow :=
  updateAll (fun r => r.user_id) tbl uid (fun r => { r with status := s })

/-- `mark_reminded` (code.py 232-238). -/
def mark_reminded (tbl : List UserRow) (uid : Int) : List UserRow :=
  updateAll (fun r => r.user_id) tbl uid (fun r => { r with reminded_3d := 1 })

/-- The `(start, end)` computation of `set_subscription` (code.py 165-177):
with an existing row whose `end_at` is truthy, the base is the parsed end
when `status == "active"` and the end lies strictly in the future, else
`now` (a `fromisoformat` failure falls back to `current_end = now`, whose
`> now` test fails); with no row or a NULL `end_at`, the end is
`now + days`. -/
def grantDates (row : Option UserRow) (days : Nat) (now : Int) : Int × Int :=
  match row with
  | some r =>
    match r.end_at with
    | .time t =>
      let base := if r.status = "active" ∧ now < t then t else now
      (now, base + (days : Int) * daySecs)
    | .bad => (now, now + (days : Int) * daySecs)
    | .null => (now, now + (days : Int) * daySecs)
  | none => (now, now + (days : Int) * daySecs)

/-- The field set written by the UPDATE of `set_subscription`
(code.py 180-184). -/
def applyGrant (plan_key : String) (se : Int × Int) (r : UserRow) : UserRow :=
  { r with
      plan_key := some plan_key, start_at := .time se.1,
      end_at := .time se.2, status := "active", reminded_3d := 0 }

/-- `set_subscription` (code.py 164-188).  Returns the updated table and the
`(start, end)` pair the Python function returns. -/
def set_subscription (tbl : List UserRow) (uid : Int) (plan_key : String)
    (days : Nat) (now : Int) : List UserRow × Int × Int :=
  let se := grantDates (get_user tbl uid) days now
  (updateAll (fun r => r.user_id) tbl uid (applyGrant plan_key se), se)

/-- `add_payment` (code.py 190-201): inserts a pending payment and returns
its id; a `sqlite3.Error` is caught at the Store boundary and surfaced as
the sentinel id `0`.  `dbOk` is the outcome of the INSERT. -/
def add_payment (db : PayDb) (uid : Int) (plan_key file_id : String) (now : Int)
    (dbOk : Bool) : PayDb × Nat :=
  if dbOk then
    ({ payments := db.payments ++
        [⟨db.nextId, uid, plan_key, file_id, now, "pending"⟩],
       nextId := db.nextId + 1 }, db.nextId)
  else (db, 0)

/-- `set_payment_status` (code.py 203-209): `UPDATE payments SET status=?
WHERE id=?`. -/
def set_payment_status (ps : List PaymentRow) (pid : Nat) (s : String) :
    List PaymentRow :=
  updateAll (fun p => p.id) ps pid (fun p => { p with status := s })

/-- `on_payment_photo` (code.py 426-448) for a non-admin sender: the plan
key defaults to `"plan1"` when no transient selection exists for the user
(line 429), so the select-a-plan guard on line 431 is unreachable on that
path.  Success-path notifications to the admin are modeled as succeeding. -/
def on_payment_photo (adminId : Int) (sel : Int → Option String) (uid : Int)
    (file_id : String) (db : PayDb) (now : Int) (dbOk : Bool) :
    PayDb × List Effect :=
  let plan_key := (sel uid).getD "plan1"
  match PLANSentry plan_key with
  | none => (db, [.sendMessage uid "❌ Please select a plan first using /start"])
  | some _plan =>
    let r := add_payment db uid plan_key file_id now dbOk
    (r.1,
     if 0 < r.2 then
       [.sendMessage adminId "payment proof received", .sendPhoto adminId,
        .sendMessage uid "✅ Screenshot received. Admin will review shortly."]
     else
       [.sendMessage uid "❌ Failed to process your payment proof. Please try again."])

/-- The notification tail of `admin_approve` (code.py 505-519): invite-link
creation and the approval message are in a `try` whose `except` retries the
message without a link; a failure of the fallback send, or of the admin-chat
summary, is caught by the handler-level `except` which answers the callback
with an error text.  `linkOk` is the invite-link creation outcome, `send1`
the with-link send, `send2` the fallback send, `adminOk` the admin-chat
summary. -/
def approveSendsCode (adminId uid : Int) (linkOk send1 send2 adminOk : Bool) :
    List Effect :=
  if linkOk && send1 then
    if adminOk then
      [.sendMessage uid "approved with invite link",
       .sendMessage adminId "approved summary", .answerCallback "Approved."]
    else
      [.sendMessage uid "approved with invite link",
       .answerCallback "Error occurred while approving payment."]
  else
    if send2 then
      if adminOk then
        [.sendMessage uid "approved without invite link",
         .sendMessage adminId "approved summary", .answerCallback "Approved."]
      else
        [.sendMessage uid "approved without invite link",
         .answerCallback "Error occurred while approving payment."]
    else [.answerCallback "Error occurred while approving payment."]

/-- `admin_approve` (code.py 483-522): admin gate, plan check, then
unconditionally mark the payment approved and re-run the grant (the stored
payment status is never consulted), then notify. -/
def admin_approve (adminId caller : Int) (users : List UserRow) (db : PayDb)
    (pid : Nat) (uid : Int) (plan_key : String) (now : Int)
    (linkOk send1 send2 adminOk : Bool) :
    (List UserRow × PayDb) × List Effect :=
  if caller = adminId then
    match PLANSentry plan_key with
    | none => ((users, db), [.answerCallback "Unknown plan."])
    | some plan =>
      let db1 : PayDb := { db with payments := set_payment_status db.payments pid "approved" }
      let users1 := (set_subscription users uid plan_key plan.2.2 now).1
      ((users1, db1),
       [.dbWrite "payments" "status approved", .dbWrite "users" "grant"]
         ++ approveSendsCode adminId uid linkOk send1 send2 adminOk)
  else ((users, db), [.answerCallback "Admins only."])

/-- `admin_deny` (code.py 524-545): mark denied, best-effort notice to the
user (its failure is swallowed), then the admin-chat summary and callback
answer (modeled as succeeding). -/
def admin_deny (adminId caller : Int) (db : PayDb) (pid : Nat) (uid : Int)
    (sendOk : Bool) : PayDb × List Effect :=
  if caller = adminId then
    ({ db with payments := set_payment_status db.payments pid "denied" },
     [.dbWrite "payments" "status denied"]
       ++ (if sendOk then [.sendMessage uid "denied notice"] else [])
       ++ [.sendMessage adminId "denied summary", .answerCallback "Denied."])
  else (db, [.answerCallback "Admins only."])

/-- code.py line 673: `reminded = r.get("reminded_3d", 0)`.  The rows come
from `list_users`, whose connection sets `row_factory = sqlite3.Row`
(line 87); `sqlite3.Row` supports indexing, `keys()`, iteration and `len`,
but has no `get` attribute, so this attribute access raises
`AttributeError` on every row. -/
def rowGetReminded (_r : UserRow) : Except PyExc Nat :=
  .error .attributeError

/-- State threaded through a sweep pass: the users table plus the effects
produced so far. -/
structure SweepState where
  users : List UserRow
  effects : List Effect
deriving DecidableEq

/-- The per-user block of `expiry_worker` (code.py 669-707).  An uncaught
exception is returned as `.error` and aborts the enclosing `for` loop.  The
reminder send and `mark_reminded` share a `try` (a failed send skips the
write); `set_status` runs before the channel removal and the expiry notice,
each of which has its own swallowing `try`. -/
def sweepUser (orc : SweepOracle) (chanId : Int) (now : Int) (s : SweepState)
    (r : UserRow) : Except PyExc SweepState := do
  let uid := r.user_id
  let status := r.status
  let reminded ← rowGetReminded r
  match r.end_at with
  | .null => pure s
  | .bad => pure s
  | .time endt =>
    let s :=
      if status = "active" ∧ reminded = 0 ∧ now < endt ∧ endt - now ≤ 3 * daySecs then
        if orc.sendOk uid "3-day reminder" then
          { users := mark_reminded s.users uid,
            effects := s.effects ++ [.sendMessage uid "3-day reminder"] }
        else s
      else s
    if endt ≤ now ∧ status ≠ "expired" then
      let s1 : SweepState := { s with users := set_status s.users uid "expired" }
      let s2 : SweepState :=
        if orc.banOk uid then
          if orc.unbanOk uid then
            { s1 with effects := s1.effects ++ [.banMember chanId uid, .unbanMember chanId uid] }
          else { s1 with effects := s1.effects ++ [.banMember chanId uid] }
        else s1
      if orc.sendOk uid "subscription expired" then
        pure { s2 with effects := s2.effects ++ [.sendMessage uid "subscription expired"] }
      else pure s2
    else pure s

/-- The `for` loop of one pass (code.py 669-707): an exception raised in an
iteration aborts the loop and is caught by the pass-level handler
(line 709), keeping the state reached so far. -/
def sweepRun (orc : SweepOracle) (chanId now : Int) :
    SweepState → List UserRow → SweepState
| s, [] => s
| s, r :: rest =>
  match sweepUser orc chanId now s r with
  | .ok s1 => sweepRun orc chanId now s1 rest
  | .error _ => s

/-- One pass of `expiry_worker` (code.py 664-712) over the current users
table.  `list_users` (148-154) orders the snapshot by `end_at` descending
and caps it at 10000 rows; the iteration order does not affect the
properties proved here, so the pass iterates the given list as-is. -/
def sweepPass (orc : SweepOracle) (chanId now : Int) (users : List UserRow) :
    SweepState :=
  sweepRun orc chanId now ⟨users, []⟩ users

end CodePy

namespace MainPy

open Bot

/-- One entry of `PLANS` (main.py 48-53). -/
structure MPlan where
  name : String
  price : String
  days : Nat
  emoji : String
  popular : Bool
deriving DecidableEq

/-- `PLANS` (main.py 48-53). -/
def PLANS : String → Option MPlan := fun k =>
  if k = "plan1" then some ⟨"1 Month", "₹99", 30, "🟢", false⟩
  else if k = "plan2" then some ⟨"6 Months", "₹399", 180, "🟡", true⟩
  else if k = "plan3" then some ⟨"1 Year", "₹1999", 365, "🔥", false⟩
  else if k = "plan4" then some ⟨"Lifetime", "₹2999", 36500, "💎", false⟩
  else none

/-- One document of the `users` collection (main.py 80-100).  Timestamps are
stored as datetimes, modeled as integer seconds. -/
structure MUser where
  user_id : Int
  username : Option String
  first_name : Option String
  last_name : Option String
  plan_key : Option String
  start_at : Option Int
  end_at : Option Int
  status : String
  created_at : Int
  updated_at : Int
  reminded_3d : Bool
deriving DecidableEq

/-- One document of the `payments` collection (main.py 129-141); `id`
models the generated ObjectId string. -/
structure MPayment where
  id : String
  user_id : Int
  plan_key : String
  file_id : String
  created_at : Int
  status : String
deriving DecidableEq

/-- `get_user` (main.py 102-107): `find_one` on `user_id`. -/
def get_user (tbl : List MUser) (uid : Int) : Option MUser :=
  findBy (fun r => r.user_id) tbl uid

/-- `upsert_user` (main.py 80-100): `update_one` with `$set` of the profile
fields and `updated_at`, `$setOnInsert` of the subscription defaults, and
`upsert=True`. -/
def upsert_user (tbl : List MUser) (u : Profile) (now : Int) : List MUser :=
  match get_user tbl u.id with
  | some _ => updateFirst (fun r => r.user_id) u.id (fun r =>
      { r with
          username := u.username, first_name := u.first_name,
          last_name := u.last_name, updated_at := now }) tbl
  | none => tbl ++
      [{ user_id := u.id, username := u.username,
         first_name := u.first_name, last_name := u.last_name, plan_key := none,
         start_at := none, end_at := none, status := "none", created_at := now,
         updated_at := now, reminded_3d := false }]

/-- `set_subscription` (main.py 109-127): unconditionally
`end_date = now + timedelta(days)` — the current `status` and `end_at` are
never read, so a still-active term is restarted from `now`, not extended. -/
def set_subscription (tbl : List MUser) (uid : Int) (plan_key : String)
    (days : Nat) (now : Int) : List MUser × Int × Int :=
  let endT := now + (days : Int) * daySecs
  (updateFirst (fun r => r.user_id) uid (fun r =>
      { r with
          plan_key := some plan_key, start_at := some now,
          end_at := some endT, status := "active", reminded_3d := false }) tbl,
   now, endT)

/-- `add_payment` (main.py 129-141): inserts a pending document and returns
the generated id; on a storage failure it logs and RE-RAISES (line 141), so
the caller receives the exception, not a sentinel value.  `ins` is the
outcome of `insert_one`, `newId` the generated document id. -/
def add_payment (ps : List MPayment) (uid : Int) (plan_key file_id : String)
    (now : Int) (newId : String) (ins : Except PyExc Unit) :
    List MPayment × Except PyExc String :=
  match ins with
  | .ok _ => (ps ++ [⟨newId, uid, plan_key, file_id, now, "pending"⟩], .ok newId)
  | .error e => (ps, .error e)

/-- `set_payment_status` (main.py 143-151): `update_one` on `_id`. -/
def set_payment_status (ps : List MPayment) (pid : String) (s : String) :
    List MPayment :=
  updateFirst (fun p => p.id) pid (fun p => { p with status := s }) ps

/-- `get_payment` (main.py 153-158): `find_one` on `_id`. -/
def get_payment (ps : List MPayment) (pid : String) : Option MPayment :=
  findBy (fun p => p.id) ps pid

/-- `on_payment_photo` (main.py 720-759) for a non-admin sender: without a
transient plan selection it answers a prompt and creates no payment
(lines 725-728); otherwise `add_payment` runs inside the handler `try`,
whose `except` answers a user-visible failure message (line 759).
Success-path notifications are modeled as succeeding. -/
def on_payment_photo (adminId : Int) (sel : Int → Option String) (uid : Int)
    (file_id : String) (ps : List MPayment) (now : Int) (newId : String)
    (ins : Except PyExc Unit) : List MPayment × List Effect :=
  match sel uid with
  | none => (ps, [.sendMessage uid "❌ Please select a plan first using /start"])
  | some plan_key =>
    match add_payment ps uid plan_key file_id now newId ins with
    | (ps1, .ok _pid) =>
      match PLANS plan_key with
      | some _plan =>
        (ps1, [.sendPhoto uid, .sendMessage adminId "new payment notice",
               .sendPhoto adminId])
      | none =>
        (ps1, [.sendMessage uid "❌ Error processing screenshot. Please try uploading again."])
    | (ps1, .error _e) =>
      (ps1, [.sendMessage uid "❌ Error processing screenshot. Please try uploading again."])

/-- The notification tail of `admin_approve` (main.py 1003-1017): the
invite-link creation is in its own `try` which only selects the message
text; the `send_message` to the user (line 1010) is NOT guarded, so its
failure reaches the handler-level `except`, which answers the callback with
an error.  The admin-chat edit-or-answer fallback is collapsed into one
`editMessage` effect. -/
def approveSendsMain (uid : Int) (linkOk sendOk : Bool) : List Effect :=
  if sendOk then
    [.sendMessage uid (if linkOk then "PAYMENT APPROVED with invite link"
                       else "PAYMENT APPROVED contact admin for access"),
     .editMessage "payment approved", .answerCallback "✅ Approved and activated!"]
  else [.answerCallback "❌ Error processing approval!"]

/-- `admin_approve` (main.py 975-1021): admin gate, fetch the payment
(existence check only — its stored `status` is never consulted), plan
lookup (a `KeyError` reaches the handler-level `except`), then mark
approved, re-run the grant, and notify. -/
def admin_approve (adminId caller : Int) (users : List MUser)
    (ps : List MPayment) (pid : String) (uid : Int) (now : Int)
    (linkOk sendOk : Bool) : (List MUser × List MPayment) × List Effect :=
  if caller = adminId then
    match get_payment ps pid with
    | none => ((users, ps), [.answerCallback "❌ Payment not found!"])
    | some payment =>
      match PLANS payment.plan_key with
      | none => ((users, ps), [.answerCallback "❌ Error processing approval!"])
      | some plan =>
        let ps1 := set_payment_status ps pid "approved"
        let users1 := (set_subscription users uid payment.plan_key plan.days now).1
        ((users1, ps1),
         [.dbWrite "payments" "status approved", .dbWrite "users" "grant"]
           ++ approveSendsMain uid linkOk sendOk)
  else ((users, ps), [.answerCallback "❌ Access denied!"])

/-- State threaded through a sweep pass of the Mongo variant. -/
structure MSweepState where
  users : List MUser
  effects : List Effect
deriving DecidableEq

/-- `reminded_3d := True` via `update_one` (main.py 1233). -/
def setReminded (tbl : List MUser) (uid : Int) : List MUser :=
  updateFirst (fun r => r.user_id) uid (fun r => { r with reminded_3d := true }) tbl

/-- `status := "expired"` via `update_one` (main.py 1242). -/
def setExpired (tbl : List MUser) (uid : Int) : List MUser :=
  updateFirst (fun r => r.user_id) uid (fun r => { r with status := "expired" }) tbl

/-- The per-user block of `expiry_worker` (main.py 1206-1256).  Every
fallible step sits inside a per-user or per-call `try`, so this function is
total: a failed reminder send skips the `reminded_3d` write (1232-1233), a
failed channel removal is swallowed (1244-1248), and a failed expiry notice
is swallowed by the per-user `try` after the status write (1240-1256). -/
def sweepUser (orc : SweepOracle) (chanId now : Int) (s : MSweepState)
    (u : MUser) : MSweepState :=
  let uid := u.user_id
  let status := u.status
  match u.end_at with
  | none => s
  | some endt =>
    let s :=
      if status = "active" ∧ u.reminded_3d = false ∧ now < endt ∧
          endt - now ≤ 3 * daySecs then
        if orc.sendOk uid "expiry reminder" then
          { users := setReminded s.users uid,
            effects := s.effects ++ [.sendMessage uid "expiry reminder"] }
        else s
      else s
    if endt ≤ now ∧ status ≠ "expired" then
      let s1 : MSweepState := { s with users := setExpired s.users uid }
      let s2 : MSweepState :=
        if orc.banOk uid then
          if orc.unbanOk uid then
            { s1 with effects := s1.effects ++ [.banMember chanId uid, .unbanMember chanId uid] }
          else { s1 with effects := s1.effects ++ [.banMember chanId uid] }
        else s1
      if orc.sendOk uid "subscription expired" then
        { s2 with effects := s2.effects ++ [.sendMessage uid "subscription expired"] }
      else s2
    else s

/-- One pass of `expiry_worker` (main.py 1198-1256): iterates the snapshot
of documents whose status is active or expired (the `$in` filter on
line 1203). -/
def sweepPass (orc : SweepOracle) (chanId now : Int) (users : List MUser) :
    MSweepState :=
  (users.filter (fun u => decide (u.status = "active" ∨ u.status = "expired"))).foldl
    (sweepUser orc chanId now) ⟨users, []⟩

end MainPy

/-! ### Generic lemmas about the store helpers -/

namespace Bot

variable {α κ : Type} [DecidableEq κ]

theorem findBy_updateAll_self (key : α → κ) (f : α → α)
    (hf : ∀ x, key (f x) = key x) (tbl : List α) (i : κ) (r : α)
    (h : findBy key tbl i = some r) :
    findBy key (updateAll key tbl i f) i = some (f r) := by
  induction tbl with
  | nil => simp [findBy] at h
  | cons a t ih =>
    by_cases hk : key a = i
    · simp only [findBy, updateAll, if_pos hk, hf, Option.some.injEq] at h ⊢
      rw [h]
    · simp only [findBy, updateAll, if_neg hk] at h ⊢
      exact ih h

theorem findBy_updateAll_other (key : α → κ) (f : α → α)
    (hf : ∀ x, key (f x) = key x) (tbl : List α) (i j : κ) (hij : j ≠ i) :
    findBy key (updateAll key tbl i f) j = findBy key tbl j := by
  induction tbl with
  | nil => rfl
  | cons a t ih =>
    by_cases hk : key a = i
    · have hj : key (f a) ≠ j := by rw [hf]; rw [hk]; exact fun hh => hij hh.symm
      have hj2 : key a ≠ j := by rw [hk]; exact fun hh => hij hh.symm
      simp only [updateAll, if_pos hk, findBy, if_neg hj, if_neg hj2]
      exact ih
    · simp only [updateAll, if_neg hk, findBy]
      by_cases hj : key a = j
      · rw [if_pos hj, if_pos hj]
      · rw [if_neg hj, if_neg hj]
        exact ih

theorem findBy_updateFirst_self (key : α → κ) (f : α → α)
    (hf : ∀ x, key (f x) = key x) (tbl : List α) (i : κ) (r : α)
    (h : findBy key tbl i = some r) :
    findBy key (updateFirst key i f tbl) i = some (f r) := by
  induction tbl with
  | nil => simp [findBy] at h
  | cons a t ih =>
    by_cases hk : key a = i
    · simp only [findBy, if_pos hk, Option.some.injEq] at h
      simp only [updateFirst, if_pos hk, findBy]
      rw [hf, if_pos hk, h]
    · simp only [findBy, if_neg hk] at h
      simp only [updateFirst, if_neg hk, findBy, if_neg hk]
      exact ih h

theorem findBy_updateFirst_other (key : α → κ) (f : α → α)
    (hf : ∀ x, key (f x) = key x) (tbl : List α) (i j : κ) (hij : j ≠ i) :
    findBy key (updateFirst key i f tbl) j = findBy key tbl j := by
  induction tbl with
  | nil => rfl
  | cons a t ih =>
    by_cases hk : key a = i
    · have hj : key (f a) ≠ j := by rw [hf, hk]; exact fun hh => hij hh.symm
      have hj2 : key a ≠ j := by rw [hk]; exact fun hh => hij hh.symm
      simp only [updateFirst, if_pos hk, findBy, if_neg hj, if_neg hj2]
    · simp only [updateFirst, if_neg hk, findBy]
      by_cases hj : key a = j
      · rw [if_pos hj, if_pos hj]
      · rw [if_neg hj, if_neg hj]
        exact ih

theorem length_updateAll (key : α → κ) (tbl : List α) (i : κ) (f : α → α) :
    (updateAll key tbl i f).length = tbl.length := by
  induction tbl with
  | nil => rfl
  | cons a t ih => simp only [updateAll, List.length_cons, ih]

theorem length_updateFirst (key : α → κ) (i : κ) (f : α → α) (tbl : List α) :
    (updateFirst key i f tbl).length = tbl.length := by
  induction tbl with
  | nil => rfl
  | cons a t ih =>
    by_cases hk : key a = i
    · simp only [updateFirst, if_pos hk, List.length_cons]
    · simp only [updateFirst, if_neg hk, List.length_cons, ih]

theorem countBy_updateAll (key : α → κ) (f : α → α)
    (hf : ∀ x, key (f x) = key x) (tbl : List α) (i j : κ) :
    countBy key (updateAll key tbl i f) j = countBy key tbl j := by
  induction tbl with
  | nil => rfl
  | cons a t ih =>
    by_cases hk : key a = i
    · simp only [updateAll, if_pos hk, countBy, hf, ih]
    · simp only [updateAll, if_neg hk, countBy, ih]

theorem countBy_updateFirst (key : α → κ) (f : α → α)
    (hf : ∀ x, key (f x) = key x) (tbl : List α) (i j : κ) :
    countBy key (updateFirst key i f tbl) j = countBy key tbl j := by
  induction tbl with
  | nil => rfl
  | cons a t ih =>
    by_cases hk : key a = i
    · simp only [updateFirst, if_pos hk, countBy, hf]
    · simp only [updateFirst, if_neg hk, countBy, ih]

theorem countBy_append_single (key : α → κ) (tbl : List α) (x : α) (i : κ) :
    countBy key (tbl ++ [x]) i = countBy key tbl i + (if key x = i then 1 else 0) := by
  induction tbl with
  | nil => simp [countBy]
  | cons a t ih =>
    rw [List.cons_append]
    simp only [countBy]
    rw [ih]
    omega

theorem countBy_of_findBy_none (key : α → κ) (tbl : List α) (i : κ)
    (h : findBy key tbl i = none) : countBy key tbl i = 0 := by
  induction tbl with
  | nil => rfl
  | cons a t ih =>
    by_cases hk : key a = i
    · simp [findBy, if_pos hk] at h
    · simp only [findBy, if_neg hk] at h
      simp only [countBy, if_neg hk, ih h]

theorem countBy_pos_of_findBy_some (key : α → κ) (tbl : List α) (i : κ) (r : α)
    (h : findBy key tbl i = some r) : 1 ≤ countBy key tbl i := by
  induction tbl with
  | nil => simp [findBy] at h
  | cons a t ih =>
    by_cases hk : key a = i
    · simp only [countBy, if_pos hk]
      omega
    · simp only [findBy, if_neg hk] at h
      simp only [countBy, if_neg hk]
      have := ih h
      omega

theorem findBy_append_single_self (key : α → κ) (tbl : List α) (x : α) (i : κ)
    (h : findBy key tbl i = none) (hx : key x = i) :
    findBy key (tbl ++ [x]) i = some x := by
  induction tbl with
  | nil => simp [findBy, if_pos hx]
  | cons a t ih =>
    by_cases hk : key a = i
    · simp [findBy, if_pos hk] at h
    · simp only [findBy, if_neg hk] at h
      simp only [List.cons_append, findBy, if_neg hk]
      exact ih h

theorem findBy_append_single_other (key : α → κ) (tbl : List α) (x : α) (j : κ)
    (hx : key x ≠ j) : findBy key (tbl ++ [x]) j = findBy key tbl j := by
  induction tbl with
  | nil => simp [findBy, if_neg hx]
  | cons a t ih =>
    by_cases hj : key a = j
    · simp only [List.cons_append, findBy, if_pos hj]
    · simp only [List.cons_append, findBy, if_neg hj]
      exact ih

end Bot

/-! ### Helper lemmas about the grant computation and the upserts -/

namespace CodePy

/-- For a user who is not active, or whose `end_at` is NULL, the grant dates
are always `(now, now + days)`. -/
theorem grantDates_fresh (r : UserRow) (days : Nat) (now : Int)
    (hna : r.status ≠ "active" ∨ r.end_at = StoredTime.null) :
    grantDates (some r) days now = (now, now + (days : Int) * Bot.daySecs) := by
  rcases hna with hs | he
  · cases het : r.end_at with
    | time t => simp [grantDates, het, hs]
    | bad => simp [grantDates, het]
    | null => simp [grantDates, het]
  · simp [grantDates, he]

theorem get_user_upsert_found (tbl : List UserRow) (p : Bot.Profile) (now : Int)
    (r : UserRow) (h : get_user tbl p.id = some r) :
    get_user (upsert_user tbl p now) p.id =
      some { r with
               username := p.username, first_name := p.first_name,
               last_name := p.last_name } := by
  simp only [upsert_user, h]
  exact Bot.findBy_updateAll_self (fun r : UserRow => r.user_id)
    (fun r : UserRow => { r with
      username := p.username, first_name := p.first_name,
      last_name := p.last_name }) (fun _ => rfl) tbl p.id r h

theorem get_user_upsert_absent (tbl : List UserRow) (p : Bot.Profile) (now : Int)
    (h : get_user tbl p.id = none) :
    get_user (upsert_user tbl p now) p.id =
      some { user_id := p.id, username := p.username,
             first_name := p.first_name, last_name := p.last_name,
             plan_key := none, start_at := .null, end_at := .null,
             status := "none", created_at := .time now, reminded_3d := 0 } := by
  simp only [upsert_user, h]
  exact Bot.findBy_append_single_self _ tbl _ p.id h rfl

theorem countBy_upsert (tbl : List UserRow) (p : Bot.Profile) (now : Int)
    (hc : Bot.countBy (fun r => r.user_id) tbl p.id ≤ 1) :
    Bot.countBy (fun r => r.user_id) (upsert_user tbl p now) p.id = 1 := by
  cases h : get_user tbl p.id with
  | some r =>
    have h1 := Bot.countBy_pos_of_findBy_some (fun r : UserRow => r.user_id) tbl p.id r h
    simp only [upsert_user, h]
    rw [Bot.countBy_updateAll (fun r : UserRow => r.user_id)
      (fun r : UserRow => { r with
      username := p.username, first_name := p.first_name,
      last_name := p.last_name }) (fun _ => rfl)]
    omega
  | none =>
    have h0 := Bot.countBy_of_findBy_none (fun r : UserRow => r.user_id) tbl p.id h
    simp only [upsert_user, h]
    rw [Bot.countBy_append_single]
    simp [h0]

theorem get_user_upsert_other (tbl : List UserRow) (p : Bot.Profile) (now : Int)
    (j : Int) (hj : j ≠ p.id) :
    get_user (upsert_user tbl p now) j = get_user tbl j := by
  cases h : get_user tbl p.id with
  | some r =>
    simp only [upsert_user, h]
    exact Bot.findBy_updateAll_other (fun r : UserRow => r.user_id)
      (fun r : UserRow => { r with
      username := p.username, first_name := p.first_name,
      last_name := p.last_name }) (fun _ => rfl) tbl p.id j hj
  | none =>
    simp only [upsert_user, h]
    exact Bot.findBy_append_single_other _ tbl _ j (fun hh => hj hh.symm)

theorem length_upsert_found (tbl : List UserRow) (p : Bot.Profile) (now : Int)
    (r : UserRow) (h : get_user tbl p.id = some r) :
    (upsert_user tbl p now).length = tbl.length := by
  simp only [upsert_user, h]
  exact Bot.length_updateAll _ tbl p.id _

end CodePy

namespace MainPy

theorem get_user_upsert_found_m (tbl : List MUser) (p : Bot.Profile) (now : Int)
    (u : MUser) (h : get_user tbl p.id = some u) :
    get_user (upsert_user tbl p now) p.id =
      some { u with
               username := p.username, first_name := p.first_name,
               last_name := p.last_name, updated_at := now } := by
  simp only [upsert_user, h]
  exact Bot.findBy_updateFirst_self (fun r : MUser => r.user_id)
    (fun r : MUser => { r with
      username := p.username, first_name := p.first_name,
      last_name := p.last_name, updated_at := now }) (fun _ => rfl) tbl p.id u h

theorem get_user_upsert_absent_m (tbl : List MUser) (p : Bot.Profile) (now : Int)
    (h : get_user tbl p.id = none) :
    get_user (upsert_user tbl p now) p.id =
      some { user_id := p.id, username := p.username,
             first_name := p.first_name, last_name := p.last_name,
             plan_key := none, start_at := none, end_at := none,
             status := "none", created_at := now, updated_at := now,
             reminded_3d := false } := by
  simp only [upsert_user, h]
  exact Bot.findBy_append_single_self _ tbl _ p.id h rfl

theorem countBy_upsert_m (tbl : List MUser) (p : Bot.Profile) (now : Int)
    (hc : Bot.countBy (fun r => r.user_id) tbl p.id ≤ 1) :
    Bot.countBy (fun r => r.user_id) (upsert_user tbl p now) p.id = 1 := by
  cases h : get_user tbl p.id with
  | some u =>
    have h1 := Bot.countBy_pos_of_findBy_some (fun r : MUser => r.user_id) tbl p.id u h
    simp only [upsert_user, h]
    rw [Bot.countBy_updateFirst (fun r : MUser => r.user_id)
      (fun r : MUser => { r with
      username := p.username, first_name := p.first_name,
      last_name := p.last_name, updated_at := now }) (fun _ => rfl)]
    omega
  | none =>
    have h0 := Bot.countBy_of_findBy_none (fun r : MUser => r.user_id) tbl p.id h
    simp only [upsert_user, h]
    rw [Bot.countBy_append_single]
    simp [h0]

theorem get_user_upsert_other_m (tbl : List MUser) (p : Bot.Profile) (now : Int)
    (j : Int) (hj : j ≠ p.id) :
    get_user (upsert_user tbl p now) j = get_user tbl j := by
  cases h : get_user tbl p.id with
  | some u =>
    simp only [upsert_user, h]
    exact Bot.findBy_updateFirst_other (fun r : MUser => r.user_id)
      (fun r : MUser => { r with
      username := p.username, first_name := p.first_name,
      last_name := p.last_name, updated_at := now }) (fun _ => rfl) tbl p.id j hj
  | none =>
    simp only [upsert_user, h]
    exact Bot.findBy_append_single_other _ tbl _ j (fun hh => hj hh.symm)

theorem length_upsert_found_m (tbl : List MUser) (p : Bot.Profile) (now : Int)
    (u : MUser) (h : get_user tbl p.id = some u) :
    (upsert_user tbl p now).length = tbl.length := by
  simp only [upsert_user, h]
  exact Bot.length_updateFirst _ p.id _ tbl

end MainPy

/-! ### Concrete fixtures used by the claim theorems -/

/-- Sweep oracle in which every outbound call succeeds. -/
def allOk : Bot.SweepOracle := ⟨fun _ _ => true, fun _ => true, fun _ => true⟩

/-- Sweep oracle in which every send to user 1 fails and every other
outbound call succeeds. -/
def sendFailsForUserOne : Bot.SweepOracle :=
  ⟨fun uid _ => decide (uid ≠ 1), fun _ => true, fun _ => true⟩

/-- An active SQLite user with 10 days of paid time left (all timestamps
relative to `now = 0`). -/
def c1UserC : CodePy.UserRow :=
  ⟨5, none, none, none, some "plan1", .time 0, .time 864000, "active", .time 0, 0⟩

/-- The same active user with 10 days left, in the Mongo store. -/
def c1UserM : MainPy.MUser :=
  ⟨5, none, none, none, some "plan1", some 0, some 864000, "active", 0, 0, false⟩

/-! ### C1 -/

/-- C1: the claim fails on the MongoDB variant.  For a user with
`status = "active"` and `end_at = now + 10 days` (864000 s), granting a
30-day plan (2592000 s) through `main.py` `set_subscription` records
`start_at = now` but yields `end_at = now + 30 days`, not the claimed
`old end_at + 30 days = now + 40 days`; the SQLite variant
`set_subscription` does extend from the old end as claimed. -/
theorem c1_mongo_set_subscription_restarts_from_now :
    MainPy.set_subscription [c1UserM] 5 "plan1" 30 0 =
      ([{ c1UserM with
            plan_key := some "plan1", start_at := some 0,
            end_at := some 2592000, status := "active",
            reminded_3d := false }],
       0, 2592000) ∧
    (2592000 : Int) ≠ 864000 + 2592000 ∧
    (CodePy.set_subscription [c1UserC] 5 "plan1" 30 0).2 = (0, 864000 + 2592000) := by
  refine ⟨rfl, by decide, rfl⟩

/-! ### C2 -/

/-- SQLite user 5 with an active term ending at `now + 10 days`. -/
def c2UserC : CodePy.UserRow :=
  ⟨5, none, none, none, some "plan1", .time 0, .time 864000, "active", .time 0, 0⟩

/-- SQLite payments table holding the single pending payment 1 of user 5. -/
def c2PayDb : CodePy.PayDb := ⟨[⟨1, 5, "plan1", "proof", 0, "pending"⟩], 2⟩

/-- One admin approval click (admin id 99) on payment 1 for user 5 and
plan1, at `now = 0`, all outbound calls succeeding, in the SQLite
variant. -/
def c2click (st : List CodePy.UserRow × CodePy.PayDb) :
    (List CodePy.UserRow × CodePy.PayDb) × List Bot.Effect :=
  CodePy.admin_approve 99 99 st.1 st.2 1 5 "plan1" 0 true true true true

/-- Mongo user 5 with no subscription yet. -/
def c2UserM : MainPy.MUser :=
  ⟨5, none, none, none, none, none, none, "none", 0, 0, false⟩

/-- Mongo payments collection holding the single pending payment p1. -/
def c2PaysM : List MainPy.MPayment := [⟨"p1", 5, "plan1", "proof", 0, "pending"⟩]

/-- One admin approval click on payment p1 at the given time, in the Mongo
variant. -/
def c2clickM (now : Int) (st : List MainPy.MUser × List MainPy.MPayment) :
    (List MainPy.MUser × List MainPy.MPayment) × List Bot.Effect :=
  MainPy.admin_approve 99 99 st.1 st.2 "p1" 5 now true true

/-- C2: the claim fails on the code.  In the SQLite variant a second
approval click on the already-approved payment re-runs the grant and
silently extends `end_at` by another 30 days (now+40d becomes now+70d), and
a deny click after an approval flips the resolved payment back to denied.
The Mongo variant likewise re-runs the grant on a repeated approval (its
`get_payment` checks existence only, never the stored status): re-approving
p1 ten days later rewrites `end_at` from 2592000 to 864000 + 2592000. -/
theorem c2_repeat_decision_regrants :
    ((CodePy.get_user (c2click ([c2UserC], c2PayDb)).1.1 5).map
        (fun r => r.end_at) = some (.time 3456000)) ∧
    ((CodePy.get_user (c2click (c2click ([c2UserC], c2PayDb)).1).1.1 5).map
        (fun r => r.end_at) = some (.time 6048000)) ∧
    CodePy.StoredTime.time 6048000 ≠ CodePy.StoredTime.time 3456000 ∧
    ((c2click ([c2UserC], c2PayDb)).1.2.payments.map (fun p => p.status) =
      ["approved"]) ∧
    ((c2click (c2click ([c2UserC], c2PayDb)).1).1.2.payments.map
        (fun p => p.status) = ["approved"]) ∧
    ((CodePy.admin_deny 99 99 (c2click ([c2UserC], c2PayDb)).1.2 1 5 true).1.payments.map
        (fun p => p.status) = ["denied"]) ∧
    ((MainPy.get_user (c2clickM 0 ([c2UserM], c2PaysM)).1.1 5).map
        (fun u => u.end_at) = some (some 2592000)) ∧
    ((MainPy.get_user (c2clickM 864000 (c2clickM 0 ([c2UserM], c2PaysM)).1).1.1 5).map
        (fun u => u.end_at) = some (some 3456000)) ∧
    (some (3456000 : Int) ≠ some (2592000 : Int)) := by
  refine ⟨rfl, rfl, by decide, rfl, rfl, rfl, rfl, rfl, by decide⟩

/-! ### C5 -/

/-- SQLite user 5, active, `reminded_3d = 0`, term ends in 2 days
(172800 s) at `now = 0`: due a 3-day reminder. -/
def c5UserC : CodePy.UserRow :=
  ⟨5, none, none, none, some "plan1", .time 0, .time 172800, "active", .time 0, 0⟩

/-- The same reminder-due user in the Mongo store. -/
def c5UserM : MainPy.MUser :=
  ⟨5, none, none, none, some "plan1", some 0, some 172800, "active", 0, 0, false⟩

/-- C5: the claim fails on the SQLite variant.  A sweep pass over a user
who is due a reminder sends nothing and writes nothing (the pass dies on
`sqlite3.Row.get`, code.py line 673), while the claim requires exactly one
reminder plus the `reminded_3d` write.  For contrast, the Mongo variant
behaves as claimed: one pass sends exactly one reminder and sets
`reminded_3d`, and a second pass before expiry sends nothing. -/
theorem c5_sqlite_sweep_sends_no_reminder :
    CodePy.sweepPass allOk (-100) 0 [c5UserC] = ⟨[c5UserC], []⟩ ∧
    MainPy.sweepPass allOk (-100) 0 [c5UserM] =
      ⟨[{ c5UserM with reminded_3d := true }],
       [.sendMessage 5 "expiry reminder"]⟩ ∧
    MainPy.sweepPass allOk (-100) 0 [{ c5UserM with reminded_3d := true }] =
      ⟨[{ c5UserM with reminded_3d := true }], []⟩ := by
  refine ⟨rfl, rfl, rfl⟩

/-! ### C6 -/

/-- SQLite user 7, still `status = "active"` but with `end_at` one day in
the past at `now = 0`: due expiry. -/
def c6UserC : CodePy.UserRow :=
  ⟨7, none, none, none, some "plan1", .time (-2678400), .time (-86400),
   "active", .time (-2678400), 0⟩

/-- The same expiry-due user in the Mongo store. -/
def c6UserM : MainPy.MUser :=
  ⟨7, none, none, none, some "plan1", some (-2678400), some (-86400),
   "active", 0, 0, false⟩

/-- C6: the claim fails on the SQLite variant.  The first sweep pass over
an expiry-due user performs no status write, no channel removal and no
notification (the pass dies on `sqlite3.Row.get`, code.py line 673), while
the claim requires all three.  For contrast, the Mongo variant behaves as
claimed: the first pass marks the user expired, removes them from the
channel and notifies them once, and a second pass is a no-op. -/
theorem c6_sqlite_sweep_never_expires :
    CodePy.sweepPass allOk (-100) 0 [c6UserC] = ⟨[c6UserC], []⟩ ∧
    MainPy.sweepPass allOk (-100) 0 [c6UserM] =
      ⟨[{ c6UserM with status := "expired" }],
       [.banMember (-100) 7, .unbanMember (-100) 7,
        .sendMessage 7 "subscription expired"]⟩ ∧
    MainPy.sweepPass allOk (-100) 0 [{ c6UserM with status := "expired" }] =
      ⟨[{ c6UserM with status := "expired" }], []⟩ := by
  refine ⟨rfl, rfl, rfl⟩

/-! ### C7 -/

/-- User 1, reminder-due; all sends to user 1 fail in the C7 scenario. -/
def c7UserOneC : CodePy.UserRow :=
  ⟨1, none, none, none, some "plan1", .time 0, .time 172800, "active", .time 0, 0⟩

/-- User 2, expiry-due, listed after user 1. -/
def c7UserTwoC : CodePy.UserRow :=
  ⟨2, none, none, none, some "plan1", .time (-2678400), .time (-86400),
   "active", .time (-2678400), 0⟩

/-- User 1, reminder-due, in the Mongo store. -/
def c7UserOneM : MainPy.MUser :=
  ⟨1, none, none, none, some "plan1", some 0, some 172800, "active", 0, 0, false⟩

/-- User 2, expiry-due, in the Mongo store. -/
def c7UserTwoM : MainPy.MUser :=
  ⟨2, none, none, none, some "plan1", some (-2678400), some (-86400),
   "active", 0, 0, false⟩

/-- C7: the claim fails on the SQLite variant.  While reconciling user 1
the pass raises (`sqlite3.Row.get`, code.py line 673); the exception is
caught only by the pass-level handler (line 709), so user 2 — whose expiry
condition holds — is never examined: no status write and no effect at all.
For contrast, the Mongo variant isolates the failure as claimed: user 1's
reminder send fails and is swallowed, and user 2 is still expired, removed
from the channel and notified. -/
theorem c7_sqlite_sweep_abort_not_isolated :
    CodePy.sweepPass sendFailsForUserOne (-100) 0 [c7UserOneC, c7UserTwoC] =
      ⟨[c7UserOneC, c7UserTwoC], []⟩ ∧
    MainPy.sweepPass sendFailsForUserOne (-100) 0 [c7UserOneM, c7UserTwoM] =
      ⟨[c7UserOneM, { c7UserTwoM with status := "expired" }],
       [.banMember (-100) 2, .unbanMember (-100) 2,
        .sendMessage 2 "subscription expired"]⟩ := by
  refine ⟨rfl, rfl⟩

/-! ### C9 -/

/-- C9 counterexample: in the MongoDB variant a storage failure inside
`add_payment` is NOT surfaced as a sentinel value — the function logs and
re-raises (main.py line 141), so at this concrete input the caller receives
the propagated exception and no payment record is created. -/
theorem c9_cex_add_payment_reraises :
    MainPy.add_payment [] 5 "plan1" "proof" 0 "p1"
        (.error .storageFailure) =
      ([], .error .storageFailure) := by
  rfl

/-- C9 (amended): `add_payment` always inserts with `status = "pending"` in
both variants.  In the SQLite variant a storage failure is caught at the
Store boundary and surfaced as the sentinel id `0`, and the photo handler
turns it into a user-visible failure message.  In the MongoDB variant
`add_payment` re-raises the exception; the calling photo handler catches it
and answers a user-visible failure message, so nothing reaches the dispatch
loop, but the Store boundary itself propagates the exception rather than
returning a sentinel. -/
theorem c9_amended_failure_surfacing (db : CodePy.PayDb)
    (ps : List MainPy.MPayment) (adminId uid : Int) (pk fid newId : String)
    (now : Int) :
    (CodePy.add_payment db uid pk fid now true).1.payments =
      db.payments ++ [⟨db.nextId, uid, pk, fid, now, "pending"⟩] ∧
    CodePy.add_payment db uid pk fid now false = (db, 0) ∧
    CodePy.on_payment_photo adminId (fun _ => some "plan1") uid fid db now false =
      (db, [.sendMessage uid "❌ Failed to process your payment proof. Please try again."]) ∧
    (MainPy.add_payment ps uid pk fid now newId (.ok ())).1 =
      ps ++ [⟨newId, uid, pk, fid, now, "pending"⟩] ∧
    MainPy.add_payment ps uid pk fid now newId (.error .storageFailure) =
      (ps, .error .storageFailure) ∧
    MainPy.on_payment_photo adminId (fun _ => some "plan1") uid fid ps now newId
        (.error .storageFailure) =
      (ps, [.sendMessage uid "❌ Error processing screenshot. Please try uploading again."]) := by
  refine ⟨rfl, rfl, rfl, rfl, rfl, rfl⟩

/-! ### C10 -/

/-- C10: with no transient plan selection recorded for the sender, the
SQLite photo handler silently defaults the plan to `"plan1"` (display name
"1 Month") and files a pending payment for it, while the MongoDB handler
creates no payment and answers the select-a-plan prompt.  Confirmed. -/
theorem c10_photo_without_selection (adminId uid : Int)
    (sel : Int → Option String) (h : sel uid = none) (db : CodePy.PayDb)
    (ps : List MainPy.MPayment) (fid : String) (now : Int) (newId : String) :
    (CodePy.on_payment_photo adminId sel uid fid db now true).1.payments =
      db.payments ++ [⟨db.nextId, uid, "plan1", fid, now, "pending"⟩] ∧
    (CodePy.PLANSentry "plan1").map (fun p => p.1) = some "1 Month" ∧
    MainPy.on_payment_photo adminId sel uid fid ps now newId (.ok ()) =
      (ps, [.sendMessage uid "❌ Please select a plan first using /start"]) := by
  refine ⟨?_, rfl, ?_⟩
  · simp [CodePy.on_payment_photo, h, CodePy.add_payment, CodePy.PLANSentry]
  · simp [MainPy.on_payment_photo, h]

/-- Closed instance of `c10_photo_without_selection` with the empty
transient-selection map. -/
theorem c10_photo_without_selection_wit :
    (CodePy.on_payment_photo 77 (fun _ => none) 3 "f" ⟨[], 1⟩ 0 true).1.payments =
      [] ++ [⟨1, 3, "plan1", "f", 0, "pending"⟩] ∧
    (CodePy.PLANSentry "plan1").map (fun p => p.1) = some "1 Month" ∧
    MainPy.on_payment_photo 77 (fun _ => none) 3 "f" [] 0 "p1" (.ok ()) =
      ([], [.sendMessage 3 "❌ Please select a plan first using /start"]) :=
  c10_photo_without_selection 77 3 (fun _ => none) rfl ⟨[], 1⟩ [] "f" 0 "p1"

/-! ### C3 -/

/-- C3: fresh grant law, confirmed for both variants.  For an existing user
who is not active (or has no prior `end_at`), granting a `days`-day plan
records `start_at = now`, `end_at = now + days` (strictly in the future for
a positive duration), `status = "active"` and a cleared reminder flag; all
other fields of the user row are untouched. -/
theorem c3_fresh_grant_law (tbl : List CodePy.UserRow) (uid : Int)
    (r : CodePy.UserRow) (hr : CodePy.get_user tbl uid = some r)
    (hna : r.status ≠ "active" ∨ r.end_at = CodePy.StoredTime.null)
    (tblM : List MainPy.MUser) (u : MainPy.MUser)
    (hu : MainPy.get_user tblM uid = some u)
    (pk : String) (days : Nat) (hd : 0 < days) (now : Int) :
    (CodePy.set_subscription tbl uid pk days now).2 =
      (now, now + (days : Int) * Bot.daySecs) ∧
    CodePy.get_user (CodePy.set_subscription tbl uid pk days now).1 uid =
      some { r with
               plan_key := some pk, start_at := .time now,
               end_at := .time (now + (days : Int) * Bot.daySecs),
               status := "active", reminded_3d := 0 } ∧
    (MainPy.set_subscription tblM uid pk days now).2 =
      (now, now + (days : Int) * Bot.daySecs) ∧
    MainPy.get_user (MainPy.set_subscription tblM uid pk days now).1 uid =
      some { u with
               plan_key := some pk, start_at := some now,
               end_at := some (now + (days : Int) * Bot.daySecs),
               status := "active", reminded_3d := false } ∧
    now < now + (days : Int) * Bot.daySecs := by
  have hdates : CodePy.grantDates (CodePy.get_user tbl uid) days now =
      (now, now + (days : Int) * Bot.daySecs) := by
    rw [hr]
    exact CodePy.grantDates_fresh r days now hna
  refine ⟨hdates, ?_, rfl, ?_, ?_⟩
  · show Bot.findBy (fun x : CodePy.UserRow => x.user_id)
        (Bot.updateAll (fun x : CodePy.UserRow => x.user_id) tbl uid
          (CodePy.applyGrant pk
            (CodePy.grantDates (CodePy.get_user tbl uid) days now))) uid = _
    rw [hdates]
    exact Bot.findBy_updateAll_self (fun x : CodePy.UserRow => x.user_id)
      (CodePy.applyGrant pk (now, now + (days : Int) * Bot.daySecs))
      (fun _ => rfl) tbl uid r hr
  · have hup := Bot.findBy_updateFirst_self (fun x : MainPy.MUser => x.user_id)
      (fun x => { x with
                    plan_key := some pk, start_at := some now,
                    end_at := some (now + (days : Int) * Bot.daySecs),
                    status := "active", reminded_3d := false })
      (fun _ => rfl) tblM uid u hu
    exact hup
  · have h1 : (1 : Int) ≤ (days : Int) := by exact_mod_cast hd
    simp only [Bot.daySecs]
    omega

/-- An existing user row with no subscription, in the SQLite store. -/
def c3UserC : CodePy.UserRow :=
  ⟨1, none, none, none, none, .null, .null, "none", .time 0, 0⟩

/-- An existing user document with no subscription, in the Mongo store. -/
def c3UserM : MainPy.MUser :=
  ⟨1, none, none, none, none, none, none, "none", 0, 0, false⟩

/-- Closed instance of `c3_fresh_grant_law`: a 30-day grant at `now = 0` to
a status-none user in either store. -/
theorem c3_fresh_grant_law_wit :
    (CodePy.set_subscription [c3UserC] 1 "plan1" 30 0).2 =
      (0, 0 + (30 : Int) * Bot.daySecs) ∧
    MainPy.get_user (MainPy.set_subscription [c3UserM] 1 "plan1" 30 0).1 1 =
      some { c3UserM with
               plan_key := some "plan1", start_at := some 0,
               end_at := some (0 + (30 : Int) * Bot.daySecs),
               status := "active", reminded_3d := false } :=
  ⟨(c3_fresh_grant_law [c3UserC] 1 c3UserC rfl (Or.inl (by decide)) [c3UserM]
      c3UserM rfl "plan1" 30 (by decide) 0).1,
   (c3_fresh_grant_law [c3UserC] 1 c3UserC rfl (Or.inl (by decide)) [c3UserM]
      c3UserM rfl "plan1" 30 (by decide) 0).2.2.2.1⟩

/-! ### C4 -/

/-- C4: idempotent upsert, confirmed for both variants (the second Mongo
call also refreshes the `updated_at` bookkeeping timestamp, shown explicitly
in the record below).  Under the primary-key / unique-id invariant (at most
one row per id), two upserts of the same id leave exactly one row for that
id, the second call adds no record and only rewrites the profile fields of
that row — every subscription field of the row, and every other row, is
unchanged — and a first call for an absent id inserts the documented
defaults (`status = "none"`, all subscription fields null). -/
theorem c4_upsert_idempotent (tbl : List CodePy.UserRow)
    (tblM : List MainPy.MUser) (p1 p2 : Bot.Profile) (hid : p2.id = p1.id)
    (n1 n2 : Int)
    (hc : Bot.countBy (fun r => r.user_id) tbl p1.id ≤ 1)
    (hm : Bot.countBy (fun r => r.user_id) tblM p1.id ≤ 1) :
    Bot.countBy (fun r => r.user_id)
        (CodePy.upsert_user (CodePy.upsert_user tbl p1 n1) p2 n2) p1.id = 1 ∧
    (CodePy.upsert_user (CodePy.upsert_user tbl p1 n1) p2 n2).length =
      (CodePy.upsert_user tbl p1 n1).length ∧
    (∃ r1, CodePy.get_user (CodePy.upsert_user tbl p1 n1) p1.id = some r1 ∧
      CodePy.get_user (CodePy.upsert_user (CodePy.upsert_user tbl p1 n1) p2 n2) p1.id =
        some { r1 with
                 username := p2.username, first_name := p2.first_name,
                 last_name := p2.last_name }) ∧
    (CodePy.get_user tbl p1.id = none →
      CodePy.get_user (CodePy.upsert_user tbl p1 n1) p1.id =
        some { user_id := p1.id, username := p1.username,
               first_name := p1.first_name, last_name := p1.last_name,
               plan_key := none, start_at := .null, end_at := .null,
               status := "none", created_at := .time n1, reminded_3d := 0 }) ∧
    (∀ j, j ≠ p1.id →
      CodePy.get_user (CodePy.upsert_user (CodePy.upsert_user tbl p1 n1) p2 n2) j =
        CodePy.get_user tbl j) ∧
    Bot.countBy (fun r => r.user_id)
        (MainPy.upsert_user (MainPy.upsert_user tblM p1 n1) p2 n2) p1.id = 1 ∧
    (MainPy.upsert_user (MainPy.upsert_user tblM p1 n1) p2 n2).length =
      (MainPy.upsert_user tblM p1 n1).length ∧
    (∃ u1, MainPy.get_user (MainPy.upsert_user tblM p1 n1) p1.id = some u1 ∧
      MainPy.get_user (MainPy.upsert_user (MainPy.upsert_user tblM p1 n1) p2 n2) p1.id =
        some { u1 with
                 username := p2.username, first_name := p2.first_name,
                 last_name := p2.last_name, updated_at := n2 }) ∧
    (MainPy.get_user tblM p1.id = none →
      MainPy.get_user (MainPy.upsert_user tblM p1 n1) p1.id =
        some { user_id := p1.id, username := p1.username,
               first_name := p1.first_name, last_name := p1.last_name,
               plan_key := none, start_at := none, end_at := none,
               status := "none", created_at := n1, updated_at := n1,
               reminded_3d := false }) ∧
    (∀ j, j ≠ p1.id →
      MainPy.get_user (MainPy.upsert_user (MainPy.upsert_user tblM p1 n1) p2 n2) j =
        MainPy.get_user tblM j) := by
  have hcnt1 : Bot.countBy (fun r => r.user_id) (CodePy.upsert_user tbl p1 n1) p1.id = 1 :=
    CodePy.countBy_upsert tbl p1 n1 hc
  have hex : ∃ r1, CodePy.get_user (CodePy.upsert_user tbl p1 n1) p1.id = some r1 := by
    cases h0 : CodePy.get_user tbl p1.id with
    | some r => exact ⟨_, CodePy.get_user_upsert_found tbl p1 n1 r h0⟩
    | none => exact ⟨_, CodePy.get_user_upsert_absent tbl p1 n1 h0⟩
  obtain ⟨r1, hr1⟩ := hex
  have hr1x : CodePy.get_user (CodePy.upsert_user tbl p1 n1) p2.id = some r1 := by
    rw [hid]; exact hr1
  have hcntM1 : Bot.countBy (fun r => r.user_id) (MainPy.upsert_user tblM p1 n1) p1.id = 1 :=
    MainPy.countBy_upsert_m tblM p1 n1 hm
  have hexM : ∃ u1, MainPy.get_user (MainPy.upsert_user tblM p1 n1) p1.id = some u1 := by
    cases h0 : MainPy.get_user tblM p1.id with
    | some u => exact ⟨_, MainPy.get_user_upsert_found_m tblM p1 n1 u h0⟩
    | none => exact ⟨_, MainPy.get_user_upsert_absent_m tblM p1 n1 h0⟩
  obtain ⟨u1, hu1⟩ := hexM
  have hu1x : MainPy.get_user (MainPy.upsert_user tblM p1 n1) p2.id = some u1 := by
    rw [hid]; exact hu1
  refine ⟨?_, ?_, ⟨r1, hr1, ?_⟩, ?_, ?_, ?_, ?_, ⟨u1, hu1, ?_⟩, ?_, ?_⟩
  · have hA := CodePy.countBy_upsert (CodePy.upsert_user tbl p1 n1) p2 n2
      (by rw [hid]; exact hcnt1.le)
    rw [hid] at hA
    exact hA
  · exact CodePy.length_upsert_found (CodePy.upsert_user tbl p1 n1) p2 n2 r1 hr1x
  · have hC := CodePy.get_user_upsert_found (CodePy.upsert_user tbl p1 n1) p2 n2 r1 hr1x
    rw [hid] at hC
    exact hC
  · intro h0
    exact CodePy.get_user_upsert_absent tbl p1 n1 h0
  · intro j hj
    have e1 := CodePy.get_user_upsert_other (CodePy.upsert_user tbl p1 n1) p2 n2 j
      (by rw [hid]; exact hj)
    have e2 := CodePy.get_user_upsert_other tbl p1 n1 j hj
    rw [e1, e2]
  · have hA := MainPy.countBy_upsert_m (MainPy.upsert_user tblM p1 n1) p2 n2
      (by rw [hid]; exact hcntM1.le)
    rw [hid] at hA
    exact hA
  · exact MainPy.length_upsert_found_m (MainPy.upsert_user tblM p1 n1) p2 n2 u1 hu1x
  · have hC := MainPy.get_user_upsert_found_m (MainPy.upsert_user tblM p1 n1) p2 n2 u1 hu1x
    rw [hid] at hC
    exact hC
  · intro h0
    exact MainPy.get_user_upsert_absent_m tblM p1 n1 h0
  · intro j hj
    have e1 := MainPy.get_user_upsert_other_m (MainPy.upsert_user tblM p1 n1) p2 n2 j
      (by rw [hid]; exact hj)
    have e2 := MainPy.get_user_upsert_other_m tblM p1 n1 j hj
    rw [e1, e2]

/-- First profile snapshot of user 1. -/
def c4p1 : Bot.Profile := ⟨1, some "alice", some "A", none⟩

/-- Second profile snapshot of user 1, with different fields. -/
def c4p2 : Bot.Profile := ⟨1, some "bob", some "B", some "C"⟩

/-- Closed instance of `c4_upsert_idempotent`: two upserts of user 1 into
empty stores leave exactly one row in each, and the second call adds no
record. -/
theorem c4_upsert_idempotent_wit :
    Bot.countBy (fun r => r.user_id)
        (CodePy.upsert_user (CodePy.upsert_user [] c4p1 10) c4p2 20) c4p1.id = 1 ∧
    (CodePy.upsert_user (CodePy.upsert_user [] c4p1 10) c4p2 20).length =
      (CodePy.upsert_user [] c4p1 10).length ∧
    Bot.countBy (fun r => r.user_id)
        (MainPy.upsert_user (MainPy.upsert_user [] c4p1 10) c4p2 20) c4p1.id = 1 :=
  ⟨(c4_upsert_idempotent [] [] c4p1 c4p2 rfl 10 20 (by decide) (by decide)).1,
   (c4_upsert_idempotent [] [] c4p1 c4p2 rfl 10 20 (by decide) (by decide)).2.1,
   (c4_upsert_idempotent [] [] c4p1 c4p2 rfl 10 20 (by decide) (by decide)).2.2.2.2.2.1⟩

/-! ### C8 -/

/-- C8: confirmed for both variants.  In `admin_approve` every store write
(the payment-status update and the grant) appears in the effect trace before
the first outbound call, and the resulting store state is the same whatever
the outcomes of the invite-link creation and of the notification sends — a
failed notification leaves the already-committed payment and user state
unchanged. -/
theorem c8_commit_before_sends (adminId caller : Int)
    (users : List CodePy.UserRow) (db : CodePy.PayDb) (pid : Nat)
    (usersM : List MainPy.MUser) (ps : List MainPy.MPayment) (pidM : String)
    (uid : Int) (pk : String) (now : Int)
    (linkOk send1 send2 adminOk sendOk : Bool) :
    Bot.writesPrecedeSends
      (CodePy.admin_approve adminId caller users db pid uid pk now
        linkOk send1 send2 adminOk).2 = true ∧
    (CodePy.admin_approve adminId caller users db pid uid pk now
        linkOk send1 send2 adminOk).1 =
      (CodePy.admin_approve adminId caller users db pid uid pk now
        true true true true).1 ∧
    Bot.writesPrecedeSends
      (MainPy.admin_approve adminId caller usersM ps pidM uid now
        linkOk sendOk).2 = true ∧
    (MainPy.admin_approve adminId caller usersM ps pidM uid now
        linkOk sendOk).1 =
      (MainPy.admin_approve adminId caller usersM ps pidM uid now
        true true).1 := by
  refine ⟨?_, ?_, ?_, ?_⟩
  · by_cases hc : caller = adminId
    · cases hP : CodePy.PLANSentry pk with
      | none =>
        simp [CodePy.admin_approve, hc, hP, Bot.writesPrecedeSends,
          Bot.Effect.isWrite]
      | some plan =>
        cases linkOk <;> cases send1 <;> cases send2 <;> cases adminOk <;>
          simp [CodePy.admin_approve, CodePy.approveSendsCode, hc, hP,
            Bot.writesPrecedeSends, Bot.Effect.isWrite]
    · simp [CodePy.admin_approve, hc, Bot.writesPrecedeSends, Bot.Effect.isWrite]
  · by_cases hc : caller = adminId
    · cases hP : CodePy.PLANSentry pk <;> simp [CodePy.admin_approve, hc, hP]
    · simp [CodePy.admin_approve, hc]
  · by_cases hc : caller = adminId
    · cases hg : MainPy.get_payment ps pidM with
      | none =>
        simp [MainPy.admin_approve, hc, hg, Bot.writesPrecedeSends,
          Bot.Effect.isWrite]
      | some payment =>
        cases hP : MainPy.PLANS payment.plan_key with
        | none =>
          simp [MainPy.admin_approve, hc, hg, hP, Bot.writesPrecedeSends,
            Bot.Effect.isWrite]
        | some plan =>
          cases linkOk <;> cases sendOk <;>
            simp [MainPy.admin_approve, MainPy.approveSendsMain, hc, hg, hP,
              Bot.writesPrecedeSends, Bot.Effect.isWrite]
    · simp [MainPy.admin_approve, hc, Bot.writesPrecedeSends, Bot.Effect.isWrite]
  · by_cases hc : caller = adminId
    · cases hg : MainPy.get_payment ps pidM with
      | none => simp [MainPy.admin_approve, hc, hg]
      | some payment =>
        cases hP : MainPy.PLANS payment.plan_key <;>
          simp [MainPy.admin_approve, hc, hg, hP]
    · simp [MainPy.admin_approve, hc]
